import Mathlib

/-!
Shallow embedding of `src/helpers.cc` of node-sdl: the V8 marshaling layer
that wraps SDL struct pointers (SDL_Surface, SDL_Rect, SDL_PixelFormat,
SDL_Joystick, TTF_Font) in script-visible objects with read-only property
accessors, plus the SDL error-to-exception helper.

Modelling choices:
* Native pointers are addresses (`Nat`); address 0 plays the role of NULL.
  Each C pointer type gets its own one-field structure so that the
  `static_cast` in the Unwrap functions is visible as a change of wrapper
  type around the same address.
* Native memory is a `Heap`: three partial maps from addresses to struct
  values.  Accessors take the heap at the moment of the read, so mutation
  of the native structs between reads is reflected automatically.
* A V8 object is its identity (allocation id), the object template it was
  instantiated from, and the single internal field (the `External` holding
  the raw pointer, modelled as the raw address).
* The process-wide V8 state is the five `static Persistent<ObjectTemplate>`
  caches plus a fresh-id counter for `NewInstance`.
* An object template stores the registered accessors as a list of
  (property name, accessor function pointer) pairs; the accessor function
  pointers are the constructors of `AccessorId`, dispatched by
  `runAccessor`.
* `SDL_GetError()` reads SDL's thread-local last-error string; it is
  modelled as a `String` parameter holding that current value.
-/

namespace NodeSdl

/-- `SDL_Surface*`: a raw address tagged with its static type. -/
structure SurfacePtr where
  addr : Nat
deriving DecidableEq, Repr

/-- `SDL_Rect*`. -/
structure RectPtr where
  addr : Nat
deriving DecidableEq, Repr

/-- `SDL_PixelFormat*`. -/
structure PixelFormatPtr where
  addr : Nat
deriving DecidableEq, Repr

/-- `SDL_Joystick*` (opaque in SDL). -/
structure JoystickPtr where
  addr : Nat
deriving DecidableEq, Repr

/-- `TTF_Font*` (opaque in SDL_ttf). -/
structure FontPtr where
  addr : Nat
deriving DecidableEq, Repr

/-- `SDL_Rect`: `Sint16 x, y; Uint16 w, h`. -/
structure SDL_Rect where
  x : Int
  y : Int
  w : Nat
  h : Nat
deriving DecidableEq, Repr

/-- The fields of `SDL_PixelFormat` read by the accessors:
`Uint8 BitsPerPixel, BytesPerPixel; Uint32 colorkey; Uint8 alpha`. -/
structure SDL_PixelFormat where
  BitsPerPixel : Nat
  BytesPerPixel : Nat
  colorkey : Nat
  alpha : Nat
deriving DecidableEq, Repr

/-- The fields of `SDL_Surface` read by the accessors: `Uint32 flags;
SDL_PixelFormat *format; int w, h; Uint16 pitch; SDL_Rect clip_rect`.
The `format` pointer is stored as its address; `clip_rect` is embedded
by value (its address is the surface address plus `clipRectOffset`). -/
structure SDL_Surface where
  flags : Nat
  format : Nat
  w : Int
  h : Int
  pitch : Nat
  clip_rect : SDL_Rect
deriving DecidableEq, Repr

/-- Byte offset of the embedded `clip_rect` field inside `SDL_Surface`
(SDL 1.2 layout); `&surface->clip_rect` is the surface address plus this. -/
def clipRectOffset : Nat := 32

/-- The address `&surface->clip_rect` computed from the surface address. -/
def clipRectAddr (surfaceAddr : Nat) : Nat := surfaceAddr + clipRectOffset

/-- Native memory owned by SDL: partial maps from addresses to the live
struct values.  Joystick and font pointees are opaque, so they need no map:
no accessor ever dereferences them. -/
structure Heap where
  surfaces : Nat → Option SDL_Surface
  rects : Nat → Option SDL_Rect
  formats : Nat → Option SDL_PixelFormat

/-- A V8 exception value (only its message is observable here). -/
structure V8Exception where
  message : String
deriving DecidableEq, Repr

/-- The result of `ThrowException`: the value scheduled as the pending
exception. -/
structure ThrownValue where
  thrown : V8Exception
deriving DecidableEq, Repr

/-- `v8::ThrowException` schedules its argument as the pending exception. -/
def ThrowException (e : V8Exception) : ThrownValue := ⟨e⟩

/-- `MakeSDLException(name)` builds
`Exception::Error(String::Concat(String::Concat(name, ": "), SDL_GetError()))`.
The current `SDL_GetError()` string is the `sdlError` parameter. -/
def MakeSDLException (name : String) (sdlError : String) : V8Exception :=
  ⟨String.append (String.append name ": ") sdlError⟩

/-- `ThrowSDLException(name)` throws `MakeSDLException(name)`. -/
def ThrowSDLException (name : String) (sdlError : String) : ThrownValue :=
  ThrowException (MakeSDLException name sdlError)

/-- The accessor callbacks passed to `ObjectTemplate::SetAccessor`, as
first-class function pointers.  Only the Surface, Rect and PixelFormat
getters exist; the Joystick and Font getters are commented out in the
source. -/
inductive AccessorId where
  | getSurfaceFlags
  | getSurfaceFormat
  | getSurfaceWidth
  | getSurfaceHeight
  | getSurfacePitch
  | getSurfaceRect
  | getRectX
  | getRectY
  | getRectW
  | getRectH
  | getFormatBits
  | getFormatBytes
  | getFormatColorkey
  | getFormatAlpha
deriving DecidableEq, Repr

/-- A `v8::ObjectTemplate`: the internal field count and the registered
accessors in registration order. -/
structure ObjectTemplate where
  internalFieldCount : Nat
  accessors : List (String × AccessorId)
deriving DecidableEq, Repr

/-- `MakeSurfaceTemplate`: one internal field, six accessors. -/
def MakeSurfaceTemplate : ObjectTemplate :=
  { internalFieldCount := 1
    accessors :=
      [("flags", AccessorId.getSurfaceFlags),
       ("format", AccessorId.getSurfaceFormat),
       ("w", AccessorId.getSurfaceWidth),
       ("h", AccessorId.getSurfaceHeight),
       ("pitch", AccessorId.getSurfacePitch),
       ("clip_rect", AccessorId.getSurfaceRect)] }

/-- `MakeRectTemplate`: one internal field, four accessors. -/
def MakeRectTemplate : ObjectTemplate :=
  { internalFieldCount := 1
    accessors :=
      [("x", AccessorId.getRectX),
       ("y", AccessorId.getRectY),
       ("w", AccessorId.getRectW),
       ("h", AccessorId.getRectH)] }

/-- `MakePixelFormatTemplate`: one internal field, four accessors. -/
def MakePixelFormatTemplate : ObjectTemplate :=
  { internalFieldCount := 1
    accessors :=
      [("bitsPerPixel", AccessorId.getFormatBits),
       ("bytesPerPixel", AccessorId.getFormatBytes),
       ("colorkey", AccessorId.getFormatColorkey),
       ("alpha", AccessorId.getFormatAlpha)] }

/-- `MakeJoystickTemplate`: one internal field; every `SetAccessor` call is
commented out, so no accessors are registered. -/
def MakeJoystickTemplate : ObjectTemplate :=
  { internalFieldCount := 1, accessors := [] }

/-- `MakeFontTemplate`: one internal field; every `SetAccessor` call is
commented out, so no accessors are registered. -/
def MakeFontTemplate : ObjectTemplate :=
  { internalFieldCount := 1, accessors := [] }

/-- A V8 object instance: its allocation identity, the template it was
instantiated from, and internal field 0 (the `External` holding the raw
pointer, i.e. the raw address). -/
structure V8Object where
  id : Nat
  templ : ObjectTemplate
  internalField0 : Nat
deriving DecidableEq, Repr

/-- The process-wide V8-side state: the five
`static Persistent<ObjectTemplate>` caches (empty handle = `none`) and the
fresh-id counter used by `NewInstance`. -/
structure WrapState where
  surface_template_ : Option ObjectTemplate
  rect_template_ : Option ObjectTemplate
  pixelformat_template_ : Option ObjectTemplate
  joystick_template_ : Option ObjectTemplate
  font_template_ : Option ObjectTemplate
  nextId : Nat
deriving DecidableEq, Repr

/-- Process start: all five template caches are empty handles. -/
def initState : WrapState :=
  { surface_template_ := none
    rect_template_ := none
    pixelformat_template_ := none
    joystick_template_ := none
    font_template_ := none
    nextId := 0 }

/-- `UnwrapSurface`: read internal field 0 and `static_cast` the `void*`
to `SDL_Surface*`, with no check of the object's provenance. -/
def UnwrapSurface (obj : V8Object) : SurfacePtr := ⟨obj.internalField0⟩

/-- `UnwrapRect`: read internal field 0 and `static_cast` to `SDL_Rect*`. -/
def UnwrapRect (obj : V8Object) : RectPtr := ⟨obj.internalField0⟩

/-- `UnwrapPixelFormat`: read internal field 0 and `static_cast` to
`SDL_PixelFormat*`. -/
def UnwrapPixelFormat (obj : V8Object) : PixelFormatPtr := ⟨obj.internalField0⟩

/-- `UnwrapJoystick`: read internal field 0 and `static_cast` to
`SDL_Joystick*`. -/
def UnwrapJoystick (obj : V8Object) : JoystickPtr := ⟨obj.internalField0⟩

/-- `UnwrapFont`: read internal field 0 and `static_cast` to `TTF_Font*`. -/
def UnwrapFont (obj : V8Object) : FontPtr := ⟨obj.internalField0⟩

/-- `WrapSurface`: lazily build and cache the surface template on first
use, instantiate it, and store the raw pointer in internal field 0. -/
def WrapSurface (surface : SurfacePtr) (st : WrapState) : V8Object × WrapState :=
  let (templ, st1) :=
    match st.surface_template_ with
    | none =>
        let raw_template := MakeSurfaceTemplate
        (raw_template, { st with surface_template_ := some raw_template })
    | some t => (t, st)
  let result : V8Object :=
    { id := st1.nextId, templ := templ, internalField0 := surface.addr }
  (result, { st1 with nextId := st1.nextId + 1 })

/-- `WrapRect`: same pattern with the rect template cache. -/
def WrapRect (rect : RectPtr) (st : WrapState) : V8Object × WrapState :=
  let (templ, st1) :=
    match st.rect_template_ with
    | none =>
        let raw_template := MakeRectTemplate
        (raw_template, { st with rect_template_ := some raw_template })
    | some t => (t, st)
  let result : V8Object :=
    { id := st1.nextId, templ := templ, internalField0 := rect.addr }
  (result, { st1 with nextId := st1.nextId + 1 })

/-- `WrapPixelFormat`: same pattern with the pixel-format template cache. -/
def WrapPixelFormat (pixelformat : PixelFormatPtr) (st : WrapState) :
    V8Object × WrapState :=
  let (templ, st1) :=
    match st.pixelformat_template_ with
    | none =>
        let raw_template := MakePixelFormatTemplate
        (raw_template, { st with pixelformat_template_ := some raw_template })
    | some t => (t, st)
  let result : V8Object :=
    { id := st1.nextId, templ := templ, internalField0 := pixelformat.addr }
  (result, { st1 with nextId := st1.nextId + 1 })

/-- `WrapJoystick`: same pattern with the joystick template cache. -/
def WrapJoystick (joystick : JoystickPtr) (st : WrapState) :
    V8Object × WrapState :=
  let (templ, st1) :=
    match st.joystick_template_ with
    | none =>
        let raw_template := MakeJoystickTemplate
        (raw_template, { st with joystick_template_ := some raw_template })
    | some t => (t, st)
  let result : V8Object :=
    { id := st1.nextId, templ := templ, internalField0 := joystick.addr }
  (result, { st1 with nextId := st1.nextId + 1 })

/-- `WrapFont`: same pattern with the font template cache. -/
def WrapFont (font : FontPtr) (st : WrapState) : V8Object × WrapState :=
  let (templ, st1) :=
    match st.font_template_ with
    | none =>
        let raw_template := MakeFontTemplate
        (raw_template, { st with font_template_ := some raw_template })
    | some t => (t, st)
  let result : V8Object :=
    { id := st1.nextId, templ := templ, internalField0 := font.addr }
  (result, { st1 with nextId := st1.nextId + 1 })

/-- A host-visible value produced by a property read: a JS number
(`Number::New`) or a wrapper object. -/
inductive Value where
  | num : Int → Value
  | object : V8Object → Value
deriving DecidableEq, Repr

/-- `GetSurfaceFlags`: unwrap the holder and return `surface->flags`.
Defined only when the pointee is live (dereferencing a dead pointer is
undefined behaviour in the source). -/
def GetSurfaceFlags (heap : Heap) (info : V8Object) (st : WrapState) :
    Option (Value × WrapState) :=
  let surface := UnwrapSurface info
  match heap.surfaces surface.addr with
  | none => none
  | some s => some (Value.num s.flags, st)

/-- `GetSurfaceFormat`: unwrap the holder and return
`WrapPixelFormat(surface->format)`. -/
def GetSurfaceFormat (heap : Heap) (info : V8Object) (st : WrapState) :
    Option (Value × WrapState) :=
  let surface := UnwrapSurface info
  match heap.surfaces surface.addr with
  | none => none
  | some s =>
      let (o, st1) := WrapPixelFormat ⟨s.format⟩ st
      some (Value.object o, st1)

/-- `GetSurfaceWidth`: `surface->w`. -/
def GetSurfaceWidth (heap : Heap) (info : V8Object) (st : WrapState) :
    Option (Value × WrapState) :=
  let surface := UnwrapSurface info
  match heap.surfaces surface.addr with
  | none => none
  | some s => some (Value.num s.w, st)

/-- `GetSurfaceHeight`: `surface->h`. -/
def GetSurfaceHeight (heap : Heap) (info : V8Object) (st : WrapState) :
    Option (Value × WrapState) :=
  let surface := UnwrapSurface info
  match heap.surfaces surface.addr with
  | none => none
  | some s => some (Value.num s.h, st)

/-- `GetSurfacePitch`: `surface->pitch`. -/
def GetSurfacePitch (heap : Heap) (info : V8Object) (st : WrapState) :
    Option (Value × WrapState) :=
  let surface := UnwrapSurface info
  match heap.surfaces surface.addr with
  | none => none
  | some s => some (Value.num s.pitch, st)

/-- `GetSurfaceRect`: return `WrapRect(&surface->clip_rect)`.  Taking the
address of the embedded field reads no memory, so no heap lookup occurs. -/
def GetSurfaceRect (heap : Heap) (info : V8Object) (st : WrapState) :
    Option (Value × WrapState) :=
  let surface := UnwrapSurface info
  let (o, st1) := WrapRect ⟨clipRectAddr surface.addr⟩ st
  some (Value.object o, st1)

/-- `GetRectX`: `rect->x`. -/
def GetRectX (heap : Heap) (info : V8Object) (st : WrapState) :
    Option (Value × WrapState) :=
  let rect := UnwrapRect info
  match heap.rects rect.addr with
  | none => none
  | some r => some (Value.num r.x, st)

/-- `GetRectY`: `rect->y`. -/
def GetRectY (heap : Heap) (info : V8Object) (st : WrapState) :
    Option (Value × WrapState) :=
  let rect := UnwrapRect info
  match heap.rects rect.addr with
  | none => none
  | some r => some (Value.num r.y, st)

/-- `GetRectW`: `rect->w`. -/
def GetRectW (heap : Heap) (info : V8Object) (st : WrapState) :
    Option (Value × WrapState) :=
  let rect := UnwrapRect info
  match heap.rects rect.addr with
  | none => none
  | some r => some (Value.num r.w, st)

/-- `GetRectH`: `rect->h`. -/
def GetRectH (heap : Heap) (info : V8Object) (st : WrapState) :
    Option (Value × WrapState) :=
  let rect := UnwrapRect info
  match heap.rects rect.addr with
  | none => none
  | some r => some (Value.num r.h, st)

/-- `GetFormatBits`: `format->BitsPerPixel`. -/
def GetFormatBits (heap : Heap) (info : V8Object) (st : WrapState) :
    Option (Value × WrapState) :=
  let format := UnwrapPixelFormat info
  match heap.formats format.addr with
  | none => none
  | some f => some (Value.num f.BitsPerPixel, st)

/-- `GetFormatBytes`: `format->BytesPerPixel`. -/
def GetFormatBytes (heap : Heap) (info : V8Object) (st : WrapState) :
    Option (Value × WrapState) :=
  let format := UnwrapPixelFormat info
  match heap.formats format.addr with
  | none => none
  | some f => some (Value.num f.BytesPerPixel, st)

/-- `GetFormatColorkey`: `format->colorkey`. -/
def GetFormatColorkey (heap : Heap) (info : V8Object) (st : WrapState) :
    Option (Value × WrapState) :=
  let format := UnwrapPixelFormat info
  match heap.formats format.addr with
  | none => none
  | some f => some (Value.num f.colorkey, st)

/-- `GetFormatAlpha`: `format->alpha`. -/
def GetFormatAlpha (heap : Heap) (info : V8Object) (st : WrapState) :
    Option (Value × WrapState) :=
  let format := UnwrapPixelFormat info
  match heap.formats format.addr with
  | none => none
  | some f => some (Value.num f.alpha, st)

/-- Dispatch an accessor function pointer to its body. -/
def runAccessor : AccessorId → Heap → V8Object → WrapState →
    Option (Value × WrapState)
  | AccessorId.getSurfaceFlags => GetSurfaceFlags
  | AccessorId.getSurfaceFormat => GetSurfaceFormat
  | AccessorId.getSurfaceWidth => GetSurfaceWidth
  | AccessorId.getSurfaceHeight => GetSurfaceHeight
  | AccessorId.getSurfacePitch => GetSurfacePitch
  | AccessorId.getSurfaceRect => GetSurfaceRect
  | AccessorId.getRectX => GetRectX
  | AccessorId.getRectY => GetRectY
  | AccessorId.getRectW => GetRectW
  | AccessorId.getRectH => GetRectH
  | AccessorId.getFormatBits => GetFormatBits
  | AccessorId.getFormatBytes => GetFormatBytes
  | AccessorId.getFormatColorkey => GetFormatColorkey
  | AccessorId.getFormatAlpha => GetFormatAlpha

/-- A property read on a wrapper object: V8 looks the name up among the
template's registered accessors and invokes the accessor with the object
as holder.  A name with no registered accessor projects no struct field
(V8 yields plain `undefined`), modelled as `none`. -/
def readProperty (heap : Heap) (obj : V8Object) (name : String)
    (st : WrapState) : Option (Value × WrapState) :=
  match obj.templ.accessors.lookup name with
  | some aid => runAccessor aid heap obj st
  | none => none

/-- States reachable in the process: each template cache is either still
empty or holds exactly the template its `MakeXTemplate` builds. -/
def WrapState.WF (st : WrapState) : Prop :=
  (st.surface_template_ = none ∨ st.surface_template_ = some MakeSurfaceTemplate) ∧
  (st.rect_template_ = none ∨ st.rect_template_ = some MakeRectTemplate) ∧
  (st.pixelformat_template_ = none ∨
    st.pixelformat_template_ = some MakePixelFormatTemplate) ∧
  (st.joystick_template_ = none ∨ st.joystick_template_ = some MakeJoystickTemplate) ∧
  (st.font_template_ = none ∨ st.font_template_ = some MakeFontTemplate)

/-- The operations this layer exposes, for reasoning about arbitrary call
sequences. -/
inductive Op where
  | wrapSurface (p : SurfacePtr)
  | wrapRect (p : RectPtr)
  | wrapPixelFormat (p : PixelFormatPtr)
  | wrapJoystick (p : JoystickPtr)
  | wrapFont (p : FontPtr)
  | unwrapSurface (obj : V8Object)
  | unwrapRect (obj : V8Object)
  | unwrapPixelFormat (obj : V8Object)
  | unwrapJoystick (obj : V8Object)
  | unwrapFont (obj : V8Object)
  | readProp (obj : V8Object) (name : String)

/-- The full state an operation can touch: the native heap and the
V8-side wrap state. -/
structure Machine where
  heap : Heap
  wrap : WrapState

/-- Run one operation.  Wrapping and property reads may update the V8-side
state (template caches, allocation counter); unwrapping is a pure read. -/
def stepOp (m : Machine) : Op → Machine
  | Op.wrapSurface p => { m with wrap := (WrapSurface p m.wrap).2 }
  | Op.wrapRect p => { m with wrap := (WrapRect p m.wrap).2 }
  | Op.wrapPixelFormat p => { m with wrap := (WrapPixelFormat p m.wrap).2 }
  | Op.wrapJoystick p => { m with wrap := (WrapJoystick p m.wrap).2 }
  | Op.wrapFont p => { m with wrap := (WrapFont p m.wrap).2 }
  | Op.unwrapSurface _ => m
  | Op.unwrapRect _ => m
  | Op.unwrapPixelFormat _ => m
  | Op.unwrapJoystick _ => m
  | Op.unwrapFont _ => m
  | Op.readProp obj name =>
      match readProperty m.heap obj name m.wrap with
      | some (_, st1) => { m with wrap := st1 }
      | none => m

/-- Run a sequence of operations. -/
def runOps (m : Machine) : List Op → Machine
  | [] => m
  | op :: ops => runOps (stepOp m op) ops

/-! ## Helper lemmas -/

/-- Closed form of `WrapSurface`: the new object carries the current
fresh id, the cached (or freshly built) template, and the raw address;
the state gains the cached template and bumps the counter. -/
theorem WrapSurface_eq (p : SurfacePtr) (st : WrapState) :
    WrapSurface p st =
      ({ id := st.nextId
         templ := st.surface_template_.getD MakeSurfaceTemplate
         internalField0 := p.addr },
       { st with
         surface_template_ := some (st.surface_template_.getD MakeSurfaceTemplate)
         nextId := st.nextId + 1 }) := by
  cases hs : st.surface_template_ <;> simp [WrapSurface, hs]

/-- Closed form of `WrapRect`. -/
theorem WrapRect_eq (p : RectPtr) (st : WrapState) :
    WrapRect p st =
      ({ id := st.nextId
         templ := st.rect_template_.getD MakeRectTemplate
         internalField0 := p.addr },
       { st with
         rect_template_ := some (st.rect_template_.getD MakeRectTemplate)
         nextId := st.nextId + 1 }) := by
  cases hs : st.rect_template_ <;> simp [WrapRect, hs]

/-- Closed form of `WrapPixelFormat`. -/
theorem WrapPixelFormat_eq (p : PixelFormatPtr) (st : WrapState) :
    WrapPixelFormat p st =
      ({ id := st.nextId
         templ := st.pixelformat_template_.getD MakePixelFormatTemplate
         internalField0 := p.addr },
       { st with
         pixelformat_template_ :=
           some (st.pixelformat_template_.getD MakePixelFormatTemplate)
         nextId := st.nextId + 1 }) := by
  cases hs : st.pixelformat_template_ <;> simp [WrapPixelFormat, hs]

/-- Closed form of `WrapJoystick`. -/
theorem WrapJoystick_eq (p : JoystickPtr) (st : WrapState) :
    WrapJoystick p st =
      ({ id := st.nextId
         templ := st.joystick_template_.getD MakeJoystickTemplate
         internalField0 := p.addr },
       { st with
         joystick_template_ := some (st.joystick_template_.getD MakeJoystickTemplate)
         nextId := st.nextId + 1 }) := by
  cases hs : st.joystick_template_ <;> simp [WrapJoystick, hs]

/-- Closed form of `WrapFont`. -/
theorem WrapFont_eq (p : FontPtr) (st : WrapState) :
    WrapFont p st =
      ({ id := st.nextId
         templ := st.font_template_.getD MakeFontTemplate
         internalField0 := p.addr },
       { st with
         font_template_ := some (st.font_template_.getD MakeFontTemplate)
         nextId := st.nextId + 1 }) := by
  cases hs : st.font_template_ <;> simp [WrapFont, hs]

/-! ## Claim theorems -/

/-- C1: Wrap/Unwrap round-trip.  For every native pointer of each of the
five wrapped types and every process state, unwrapping the object produced
by wrapping the pointer returns exactly that pointer: wrap stores the
address as the single internal field, and unwrap reads it back unchanged. -/
theorem wrap_unwrap_roundtrip :
    ∀ (st : WrapState) (ps : SurfacePtr) (pr : RectPtr) (pf : PixelFormatPtr)
      (pj : JoystickPtr) (pt : FontPtr),
      UnwrapSurface (WrapSurface ps st).1 = ps ∧
      UnwrapRect (WrapRect pr st).1 = pr ∧
      UnwrapPixelFormat (WrapPixelFormat pf st).1 = pf ∧
      UnwrapJoystick (WrapJoystick pj st).1 = pj ∧
      UnwrapFont (WrapFont pt st).1 = pt := by
  intro st ps pr pf pj pt
  refine ⟨?_, ?_, ?_, ?_, ?_⟩ <;>
    simp [WrapSurface_eq, WrapRect_eq, WrapPixelFormat_eq, WrapJoystick_eq,
      WrapFont_eq, UnwrapSurface, UnwrapRect, UnwrapPixelFormat,
      UnwrapJoystick, UnwrapFont]

/-- C4: Error formatting.  For every label and every current
`SDL_GetError()` string, `MakeSDLException` builds an exception whose
message is exactly label ++ ": " ++ error, and `ThrowSDLException` throws
exactly that exception value. -/
theorem make_sdl_exception_format :
    ∀ (name sdlError : String),
      (MakeSDLException name sdlError).message = name ++ ": " ++ sdlError ∧
      (ThrowSDLException name sdlError).thrown = MakeSDLException name sdlError := by
  intro name sdlError
  exact ⟨rfl, rfl⟩

/-- C9: Unwrap performs no type check.  Every `UnwrapX` unconditionally
reinterprets internal field 0 as the target pointer type; applied to a
wrapper built by a different `WrapY` it returns the foreign raw address
under the new type instead of failing. -/
theorem unwrap_no_typecheck :
    ∀ (obj : V8Object) (st : WrapState) (ps : SurfacePtr) (pr : RectPtr),
      UnwrapSurface obj = ⟨obj.internalField0⟩ ∧
      UnwrapRect obj = ⟨obj.internalField0⟩ ∧
      UnwrapPixelFormat obj = ⟨obj.internalField0⟩ ∧
      UnwrapJoystick obj = ⟨obj.internalField0⟩ ∧
      UnwrapFont obj = ⟨obj.internalField0⟩ ∧
      UnwrapRect (WrapSurface ps st).1 = ⟨ps.addr⟩ ∧
      UnwrapPixelFormat (WrapSurface ps st).1 = ⟨ps.addr⟩ ∧
      UnwrapSurface (WrapRect pr st).1 = ⟨pr.addr⟩ := by
  intro obj st ps pr
  refine ⟨rfl, rfl, rfl, rfl, rfl, ?_, ?_, ?_⟩ <;>
    simp [WrapSurface_eq, WrapRect_eq, UnwrapSurface, UnwrapRect,
      UnwrapPixelFormat]

/-- C10: Wrapping NULL succeeds.  No `WrapX` checks its argument, so
wrapping the null address (0) returns a normal wrapper whose unwrap
yields the null address again; no error is raised at wrap time. -/
theorem wrap_null_succeeds :
    ∀ st : WrapState,
      UnwrapSurface (WrapSurface ⟨0⟩ st).1 = ⟨0⟩ ∧
      UnwrapRect (WrapRect ⟨0⟩ st).1 = ⟨0⟩ ∧
      UnwrapPixelFormat (WrapPixelFormat ⟨0⟩ st).1 = ⟨0⟩ ∧
      UnwrapJoystick (WrapJoystick ⟨0⟩ st).1 = ⟨0⟩ ∧
      UnwrapFont (WrapFont ⟨0⟩ st).1 = ⟨0⟩ := by
  intro st
  refine ⟨?_, ?_, ?_, ?_, ?_⟩ <;>
    simp [WrapSurface_eq, WrapRect_eq, WrapPixelFormat_eq, WrapJoystick_eq,
      WrapFont_eq, UnwrapSurface, UnwrapRect, UnwrapPixelFormat,
      UnwrapJoystick, UnwrapFont]

/-- A property read only consults the holder's template and internal
field 0, never its allocation identity. -/
theorem readProperty_congr (heap : Heap) (name : String) (st : WrapState)
    (o o' : V8Object) (ht : o.templ = o'.templ)
    (hf : o.internalField0 = o'.internalField0) :
    readProperty heap o name st = readProperty heap o' name st := by
  unfold readProperty
  rw [ht]
  cases o'.templ.accessors.lookup name with
  | none => rfl
  | some aid =>
      cases aid <;>
        simp [runAccessor, GetSurfaceFlags, GetSurfaceFormat, GetSurfaceWidth,
          GetSurfaceHeight, GetSurfacePitch, GetSurfaceRect, GetRectX, GetRectY,
          GetRectW, GetRectH, GetFormatBits, GetFormatBytes, GetFormatColorkey,
          GetFormatAlpha, UnwrapSurface, UnwrapRect, UnwrapPixelFormat, hf]

/-- C5: Double-wrap independence.  Wrapping the same pointer twice (for
each of the five types) yields two wrapper instances with distinct
identities, both of which unwrap to the original pointer, and which give
identical results for every subsequent property read against any heap. -/
theorem double_wrap_independent :
    ∀ (st : WrapState) (ps : SurfacePtr) (pr : RectPtr) (pf : PixelFormatPtr)
      (pj : JoystickPtr) (pt : FontPtr),
      ((WrapSurface ps st).1.id ≠ (WrapSurface ps (WrapSurface ps st).2).1.id ∧
        UnwrapSurface (WrapSurface ps st).1 = ps ∧
        UnwrapSurface (WrapSurface ps (WrapSurface ps st).2).1 = ps ∧
        ∀ heap name st0,
          readProperty heap (WrapSurface ps st).1 name st0 =
            readProperty heap (WrapSurface ps (WrapSurface ps st).2).1 name st0) ∧
      ((WrapRect pr st).1.id ≠ (WrapRect pr (WrapRect pr st).2).1.id ∧
        UnwrapRect (WrapRect pr st).1 = pr ∧
        UnwrapRect (WrapRect pr (WrapRect pr st).2).1 = pr ∧
        ∀ heap name st0,
          readProperty heap (WrapRect pr st).1 name st0 =
            readProperty heap (WrapRect pr (WrapRect pr st).2).1 name st0) ∧
      ((WrapPixelFormat pf st).1.id ≠
          (WrapPixelFormat pf (WrapPixelFormat pf st).2).1.id ∧
        UnwrapPixelFormat (WrapPixelFormat pf st).1 = pf ∧
        UnwrapPixelFormat (WrapPixelFormat pf (WrapPixelFormat pf st).2).1 = pf ∧
        ∀ heap name st0,
          readProperty heap (WrapPixelFormat pf st).1 name st0 =
            readProperty heap (WrapPixelFormat pf (WrapPixelFormat pf st).2).1
              name st0) ∧
      ((WrapJoystick pj st).1.id ≠ (WrapJoystick pj (WrapJoystick pj st).2).1.id ∧
        UnwrapJoystick (WrapJoystick pj st).1 = pj ∧
        UnwrapJoystick (WrapJoystick pj (WrapJoystick pj st).2).1 = pj ∧
        ∀ heap name st0,
          readProperty heap (WrapJoystick pj st).1 name st0 =
            readProperty heap (WrapJoystick pj (WrapJoystick pj st).2).1 name st0) ∧
      ((WrapFont pt st).1.id ≠ (WrapFont pt (WrapFont pt st).2).1.id ∧
        UnwrapFont (WrapFont pt st).1 = pt ∧
        UnwrapFont (WrapFont pt (WrapFont pt st).2).1 = pt ∧
        ∀ heap name st0,
          readProperty heap (WrapFont pt st).1 name st0 =
            readProperty heap (WrapFont pt (WrapFont pt st).2).1 name st0) := by
  intro st ps pr pf pj pt
  refine ⟨⟨?_, ?_, ?_, ?_⟩, ⟨?_, ?_, ?_, ?_⟩, ⟨?_, ?_, ?_, ?_⟩,
    ⟨?_, ?_, ?_, ?_⟩, ⟨?_, ?_, ?_, ?_⟩⟩ <;>
    first
    | (intro heap name st0
       exact readProperty_congr heap name st0 _ _
         (by simp [WrapSurface_eq, WrapRect_eq, WrapPixelFormat_eq,
           WrapJoystick_eq, WrapFont_eq])
         (by simp [WrapSurface_eq, WrapRect_eq, WrapPixelFormat_eq,
           WrapJoystick_eq, WrapFont_eq]))
    | simp [WrapSurface_eq, WrapRect_eq, WrapPixelFormat_eq, WrapJoystick_eq,
        WrapFont_eq, UnwrapSurface, UnwrapRect, UnwrapPixelFormat,
        UnwrapJoystick, UnwrapFont]

/-- C6: Lazy one-time template initialization.  For each of the five
types: a wrap from a state with an empty cache builds and caches
`MakeXTemplate` and instantiates it; a wrap from a state whose cache
already holds a template reuses that very template, unchanged, without
rebuilding. -/
theorem template_lazy_init :
    ∀ (st : WrapState) (ps : SurfacePtr) (pr : RectPtr) (pf : PixelFormatPtr)
      (pj : JoystickPtr) (pt : FontPtr),
      (st.surface_template_ = none →
        (WrapSurface ps st).1.templ = MakeSurfaceTemplate ∧
        (WrapSurface ps st).2.surface_template_ = some MakeSurfaceTemplate) ∧
      (∀ t, st.surface_template_ = some t →
        (WrapSurface ps st).1.templ = t ∧
        (WrapSurface ps st).2.surface_template_ = some t) ∧
      (st.rect_template_ = none →
        (WrapRect pr st).1.templ = MakeRectTemplate ∧
        (WrapRect pr st).2.rect_template_ = some MakeRectTemplate) ∧
      (∀ t, st.rect_template_ = some t →
        (WrapRect pr st).1.templ = t ∧
        (WrapRect pr st).2.rect_template_ = some t) ∧
      (st.pixelformat_template_ = none →
        (WrapPixelFormat pf st).1.templ = MakePixelFormatTemplate ∧
        (WrapPixelFormat pf st).2.pixelformat_template_ =
          some MakePixelFormatTemplate) ∧
      (∀ t, st.pixelformat_template_ = some t →
        (WrapPixelFormat pf st).1.templ = t ∧
        (WrapPixelFormat pf st).2.pixelformat_template_ = some t) ∧
      (st.joystick_template_ = none →
        (WrapJoystick pj st).1.templ = MakeJoystickTemplate ∧
        (WrapJoystick pj st).2.joystick_template_ = some MakeJoystickTemplate) ∧
      (∀ t, st.joystick_template_ = some t →
        (WrapJoystick pj st).1.templ = t ∧
        (WrapJoystick pj st).2.joystick_template_ = some t) ∧
      (st.font_template_ = none →
        (WrapFont pt st).1.templ = MakeFontTemplate ∧
        (WrapFont pt st).2.font_template_ = some MakeFontTemplate) ∧
      (∀ t, st.font_template_ = some t →
        (WrapFont pt st).1.templ = t ∧
        (WrapFont pt st).2.font_template_ = some t) := by
  intro st ps pr pf pj pt
  refine ⟨?_, ?_, ?_, ?_, ?_, ?_, ?_, ?_, ?_, ?_⟩ <;>
    first
    | (intro h
       constructor <;>
         simp [WrapSurface_eq, WrapRect_eq, WrapPixelFormat_eq,
           WrapJoystick_eq, WrapFont_eq, h])
    | (intro t h
       constructor <;>
         simp [WrapSurface_eq, WrapRect_eq, WrapPixelFormat_eq,
           WrapJoystick_eq, WrapFont_eq, h])

/-- Witness for C6 at concrete inputs: the first `WrapSurface` from the
initial state caches `MakeSurfaceTemplate`, and a second `WrapSurface`
from the resulting state reuses the same cached template. -/
theorem template_lazy_init_witness :
    ((WrapSurface ⟨7⟩ initState).1.templ = MakeSurfaceTemplate ∧
      (WrapSurface ⟨7⟩ initState).2.surface_template_ =
        some MakeSurfaceTemplate) ∧
    ((WrapSurface ⟨7⟩ (WrapSurface ⟨7⟩ initState).2).1.templ =
        MakeSurfaceTemplate ∧
      (WrapSurface ⟨7⟩ (WrapSurface ⟨7⟩ initState).2).2.surface_template_ =
        some MakeSurfaceTemplate) :=
  ⟨(template_lazy_init initState ⟨7⟩ ⟨0⟩ ⟨0⟩ ⟨0⟩ ⟨0⟩).1 rfl,
    (template_lazy_init (WrapSurface ⟨7⟩ initState).2 ⟨7⟩ ⟨0⟩ ⟨0⟩ ⟨0⟩ ⟨0⟩).2.1
      MakeSurfaceTemplate rfl⟩

/-- One operation never changes the native heap. -/
theorem stepOp_heap (m : Machine) (op : Op) : (stepOp m op).heap = m.heap := by
  cases op <;> simp [stepOp] <;> split <;> rfl

/-- C7: Read-only frame property.  No sequence of wrap, unwrap, and
property-read operations changes any field of any underlying native
struct, and no entry is ever removed from native memory (nothing is
freed). -/
theorem native_state_frame :
    ∀ (ops : List Op) (m : Machine), (runOps m ops).heap = m.heap := by
  intro ops
  induction ops with
  | nil => intro m; rfl
  | cons op ops ih =>
      intro m
      rw [runOps, ih, stepOp_heap]

/-- In a reachable state, a surface wrapper is always an instance of
`MakeSurfaceTemplate`. -/
theorem WrapSurface_templ_of_WF (p : SurfacePtr) (st : WrapState) (h : st.WF) :
    (WrapSurface p st).1.templ = MakeSurfaceTemplate := by
  rcases h.1 with hc | hc <;> simp [WrapSurface_eq, hc]

/-- In a reachable state, a rect wrapper is always an instance of
`MakeRectTemplate`. -/
theorem WrapRect_templ_of_WF (p : RectPtr) (st : WrapState) (h : st.WF) :
    (WrapRect p st).1.templ = MakeRectTemplate := by
  rcases h.2.1 with hc | hc <;> simp [WrapRect_eq, hc]

/-- In a reachable state, a pixel-format wrapper is always an instance of
`MakePixelFormatTemplate`. -/
theorem WrapPixelFormat_templ_of_WF (p : PixelFormatPtr) (st : WrapState)
    (h : st.WF) :
    (WrapPixelFormat p st).1.templ = MakePixelFormatTemplate := by
  rcases h.2.2.1 with hc | hc <;> simp [WrapPixelFormat_eq, hc]

/-- In a reachable state, a joystick wrapper is always an instance of
`MakeJoystickTemplate`. -/
theorem WrapJoystick_templ_of_WF (p : JoystickPtr) (st : WrapState) (h : st.WF) :
    (WrapJoystick p st).1.templ = MakeJoystickTemplate := by
  rcases h.2.2.2.1 with hc | hc <;> simp [WrapJoystick_eq, hc]

/-- In a reachable state, a font wrapper is always an instance of
`MakeFontTemplate`. -/
theorem WrapFont_templ_of_WF (p : FontPtr) (st : WrapState) (h : st.WF) :
    (WrapFont p st).1.templ = MakeFontTemplate := by
  rcases h.2.2.2.2 with hc | hc <;> simp [WrapFont_eq, hc]

/-- C2: Scalar accessor correctness.  In any reachable state, reading one
of the scalar properties of a Surface, Rect or PixelFormat wrapper returns
exactly the current value of the corresponding native struct field in the
heap supplied at the moment of the read, so mutations of the native
structs between reads are reflected. -/
theorem scalar_accessor_correct :
    ∀ (heap : Heap) (st : WrapState), st.WF →
      (∀ (ps : SurfacePtr) (s : SDL_Surface), heap.surfaces ps.addr = some s →
        readProperty heap (WrapSurface ps st).1 "flags" (WrapSurface ps st).2 =
          some (Value.num s.flags, (WrapSurface ps st).2) ∧
        readProperty heap (WrapSurface ps st).1 "w" (WrapSurface ps st).2 =
          some (Value.num s.w, (WrapSurface ps st).2) ∧
        readProperty heap (WrapSurface ps st).1 "h" (WrapSurface ps st).2 =
          some (Value.num s.h, (WrapSurface ps st).2) ∧
        readProperty heap (WrapSurface ps st).1 "pitch" (WrapSurface ps st).2 =
          some (Value.num s.pitch, (WrapSurface ps st).2)) ∧
      (∀ (pr : RectPtr) (r : SDL_Rect), heap.rects pr.addr = some r →
        readProperty heap (WrapRect pr st).1 "x" (WrapRect pr st).2 =
          some (Value.num r.x, (WrapRect pr st).2) ∧
        readProperty heap (WrapRect pr st).1 "y" (WrapRect pr st).2 =
          some (Value.num r.y, (WrapRect pr st).2) ∧
        readProperty heap (WrapRect pr st).1 "w" (WrapRect pr st).2 =
          some (Value.num r.w, (WrapRect pr st).2) ∧
        readProperty heap (WrapRect pr st).1 "h" (WrapRect pr st).2 =
          some (Value.num r.h, (WrapRect pr st).2)) ∧
      (∀ (pf : PixelFormatPtr) (f : SDL_PixelFormat),
        heap.formats pf.addr = some f →
        readProperty heap (WrapPixelFormat pf st).1 "bitsPerPixel"
            (WrapPixelFormat pf st).2 =
          some (Value.num f.BitsPerPixel, (WrapPixelFormat pf st).2) ∧
        readProperty heap (WrapPixelFormat pf st).1 "bytesPerPixel"
            (WrapPixelFormat pf st).2 =
          some (Value.num f.BytesPerPixel, (WrapPixelFormat pf st).2) ∧
        readProperty heap (WrapPixelFormat pf st).1 "colorkey"
            (WrapPixelFormat pf st).2 =
          some (Value.num f.colorkey, (WrapPixelFormat pf st).2) ∧
        readProperty heap (WrapPixelFormat pf st).1 "alpha"
            (WrapPixelFormat pf st).2 =
          some (Value.num f.alpha, (WrapPixelFormat pf st).2)) := by
  intro heap st hWF
  refine ⟨?_, ?_, ?_⟩
  · intro ps s h
    have ht := WrapSurface_templ_of_WF ps st hWF
    have hf : (WrapSurface ps st).1.internalField0 = ps.addr := by
      simp [WrapSurface_eq]
    refine ⟨?_, ?_, ?_, ?_⟩ <;>
      simp [readProperty, ht, MakeSurfaceTemplate, List.lookup, runAccessor,
        GetSurfaceFlags, GetSurfaceWidth, GetSurfaceHeight, GetSurfacePitch,
        UnwrapSurface, hf, h]
  · intro pr r h
    have ht := WrapRect_templ_of_WF pr st hWF
    have hf : (WrapRect pr st).1.internalField0 = pr.addr := by
      simp [WrapRect_eq]
    refine ⟨?_, ?_, ?_, ?_⟩ <;>
      simp [readProperty, ht, MakeRectTemplate, List.lookup, runAccessor,
        GetRectX, GetRectY, GetRectW, GetRectH, UnwrapRect, hf, h]
  · intro pf f h
    have ht := WrapPixelFormat_templ_of_WF pf st hWF
    have hf : (WrapPixelFormat pf st).1.internalField0 = pf.addr := by
      simp [WrapPixelFormat_eq]
    refine ⟨?_, ?_, ?_, ?_⟩ <;>
      simp [readProperty, ht, MakePixelFormatTemplate, List.lookup, runAccessor,
        GetFormatBits, GetFormatBytes, GetFormatColorkey, GetFormatAlpha,
        UnwrapPixelFormat, hf, h]

/-- C3: Nested-wrapper accessors.  In any reachable state, reading
`format` on a surface wrapper returns a PixelFormat wrapper whose stored
pointer is `surface->format`, and reading `clip_rect` returns a Rect
wrapper whose stored pointer is `&surface->clip_rect`. -/
theorem nested_wrapper_accessors :
    ∀ (heap : Heap) (st : WrapState), st.WF →
      ∀ (ps : SurfacePtr) (s : SDL_Surface), heap.surfaces ps.addr = some s →
        (readProperty heap (WrapSurface ps st).1 "format"
            (WrapSurface ps st).2 =
          some (Value.object (WrapPixelFormat ⟨s.format⟩ (WrapSurface ps st).2).1,
            (WrapPixelFormat ⟨s.format⟩ (WrapSurface ps st).2).2) ∧
         UnwrapPixelFormat (WrapPixelFormat ⟨s.format⟩ (WrapSurface ps st).2).1 =
           ⟨s.format⟩) ∧
        (readProperty heap (WrapSurface ps st).1 "clip_rect"
            (WrapSurface ps st).2 =
          some (Value.object
              (WrapRect ⟨clipRectAddr ps.addr⟩ (WrapSurface ps st).2).1,
            (WrapRect ⟨clipRectAddr ps.addr⟩ (WrapSurface ps st).2).2) ∧
         UnwrapRect (WrapRect ⟨clipRectAddr ps.addr⟩ (WrapSurface ps st).2).1 =
           ⟨clipRectAddr ps.addr⟩) := by
  intro heap st hWF ps s h
  have ht := WrapSurface_templ_of_WF ps st hWF
  have hf : (WrapSurface ps st).1.internalField0 = ps.addr := by
    simp [WrapSurface_eq]
  refine ⟨⟨?_, ?_⟩, ⟨?_, ?_⟩⟩ <;>
    simp [readProperty, ht, MakeSurfaceTemplate, List.lookup, runAccessor,
      GetSurfaceFormat, GetSurfaceRect, UnwrapSurface, UnwrapPixelFormat,
      UnwrapRect, WrapPixelFormat_eq, WrapRect_eq, hf, h]

/-- C8: Joystick and Font wrappers expose no fields.  Their templates
register zero accessors, so in any reachable state every property read on
a Joystick or Font wrapper projects no native struct field. -/
theorem joystick_font_no_fields :
    MakeJoystickTemplate.accessors = [] ∧
    MakeFontTemplate.accessors = [] ∧
    ∀ (st : WrapState), st.WF →
      ∀ (heap : Heap) (name : String) (pj : JoystickPtr) (pt : FontPtr),
        readProperty heap (WrapJoystick pj st).1 name (WrapJoystick pj st).2 =
          none ∧
        readProperty heap (WrapFont pt st).1 name (WrapFont pt st).2 = none := by
  refine ⟨rfl, rfl, ?_⟩
  intro st hWF heap name pj pt
  constructor
  · simp [readProperty, WrapJoystick_templ_of_WF pj st hWF,
      MakeJoystickTemplate, List.lookup]
  · simp [readProperty, WrapFont_templ_of_WF pt st hWF, MakeFontTemplate,
      List.lookup]

/-! ## Concrete data for witnesses -/

/-- A concrete pixel format pointee used by witnesses. -/
def sampleFormat : SDL_PixelFormat :=
  { BitsPerPixel := 32, BytesPerPixel := 4, colorkey := 7, alpha := 255 }

/-- A concrete rect pointee used by witnesses. -/
def sampleRect : SDL_Rect := { x := 3, y := -4, w := 5, h := 6 }

/-- A concrete surface pointee used by witnesses; its `format` pointer is
address 300. -/
def sampleSurface : SDL_Surface :=
  { flags := 1, format := 300, w := 640, h := 480, pitch := 2560
    clip_rect := { x := 0, y := 0, w := 640, h := 480 } }

/-- A concrete heap used by witnesses: a surface at 100, a rect at 200, a
pixel format at 300. -/
def sampleHeap : Heap :=
  { surfaces := fun a => if a = 100 then some sampleSurface else none
    rects := fun a => if a = 200 then some sampleRect else none
    formats := fun a => if a = 300 then some sampleFormat else none }

/-- The initial process state is reachable. -/
theorem initState_WF : initState.WF :=
  ⟨Or.inl rfl, Or.inl rfl, Or.inl rfl, Or.inl rfl, Or.inl rfl⟩

/-- Witness for C2 at concrete inputs: reading `flags` on a wrapper of the
surface at address 100 gives that surface's current `flags` value. -/
theorem scalar_accessor_correct_witness :
    readProperty sampleHeap (WrapSurface ⟨100⟩ initState).1 "flags"
        (WrapSurface ⟨100⟩ initState).2 =
      some (Value.num sampleSurface.flags, (WrapSurface ⟨100⟩ initState).2) :=
  ((scalar_accessor_correct sampleHeap initState initState_WF).1
    ⟨100⟩ sampleSurface rfl).1

/-- Witness for C3 at concrete inputs: reading `format` on a wrapper of
the surface at address 100 yields a pixel-format wrapper storing that
surface's `format` pointer (address 300). -/
theorem nested_wrapper_accessors_witness :
    readProperty sampleHeap (WrapSurface ⟨100⟩ initState).1 "format"
        (WrapSurface ⟨100⟩ initState).2 =
      some (Value.object
          (WrapPixelFormat ⟨sampleSurface.format⟩
            (WrapSurface ⟨100⟩ initState).2).1,
        (WrapPixelFormat ⟨sampleSurface.format⟩
          (WrapSurface ⟨100⟩ initState).2).2) ∧
    UnwrapPixelFormat
        (WrapPixelFormat ⟨sampleSurface.format⟩
          (WrapSurface ⟨100⟩ initState).2).1 =
      ⟨sampleSurface.format⟩ :=
  (nested_wrapper_accessors sampleHeap initState initState_WF
    ⟨100⟩ sampleSurface rfl).1

/-- Witness for C8 at concrete inputs: reading `flags` on a joystick
wrapper and on a font wrapper both project nothing. -/
theorem joystick_font_no_fields_witness :
    readProperty sampleHeap (WrapJoystick ⟨5⟩ initState).1 "flags"
        (WrapJoystick ⟨5⟩ initState).2 = none ∧
    readProperty sampleHeap (WrapFont ⟨6⟩ initState).1 "flags"
        (WrapFont ⟨6⟩ initState).2 = none :=
  joystick_font_no_fields.2.2 initState initState_WF sampleHeap "flags" ⟨5⟩ ⟨6⟩

/-- Witness for C5 at concrete inputs: wrapping the surface address 100
twice from the initial state yields objects with distinct identities that
unwrap to the same pointer. -/
theorem double_wrap_independent_witness :
    (WrapSurface ⟨100⟩ initState).1.id ≠
        (WrapSurface ⟨100⟩ (WrapSurface ⟨100⟩ initState).2).1.id ∧
      UnwrapSurface (WrapSurface ⟨100⟩ initState).1 = ⟨100⟩ ∧
      UnwrapSurface (WrapSurface ⟨100⟩ (WrapSurface ⟨100⟩ initState).2).1 =
        ⟨100⟩ :=
  ⟨(double_wrap_independent initState ⟨100⟩ ⟨0⟩ ⟨0⟩ ⟨0⟩ ⟨0⟩).1.1,
    (double_wrap_independent initState ⟨100⟩ ⟨0⟩ ⟨0⟩ ⟨0⟩ ⟨0⟩).1.2.1,
    (double_wrap_independent initState ⟨100⟩ ⟨0⟩ ⟨0⟩ ⟨0⟩ ⟨0⟩).1.2.2.1⟩

end NodeSdl
